import Mathlib

/-!
Shallow embedding of the story-generator backend.  The repository holds two
variants of the same server: `src/index.js` (the primary implementation,
embedded in namespace `IndexJs`) and `src/unnamed/part_000` (an observed
variant, embedded in namespace `Part000`).  Pure functions are translated
directly; the mutable credential pool becomes explicit state passing; the
retry loop of the call executor becomes structural recursion over the
remaining attempt budget; strings are modelled as `List Char` where the
claims are about character counts and slicing, and JavaScript floating-point
arithmetic on small fractions (`0.95`, `partNum / totalParts`) is idealised
as exact rational arithmetic (the quantities compared are far outside
double-rounding range at every relevant input).
-/

/-- State of the credential pool shared by both variants: the loaded API keys
(`apiKeys`, in load order) and the round-robin rotation cursor
(`currentKeyIndex`, initially 0).  There is no further per-credential state in
the source: no use counter, no suspension flag, no cooldown timestamp. -/
structure PoolState where
  apiKeys : List String
  currentKeyIndex : Nat
  deriving DecidableEq, Repr

/-- The key-loading loop at startup: for slots `i = 1..10` the value of
`process.env[GEMINI_KEY_i]` is read and pushed when truthy, i.e. when the
slot is present and its value is not the empty string (`if (key)
apiKeys.push(key)`).  No trimming or whitespace test is performed. -/
def loadApiKeys (env : Nat → Option String) : List String :=
  (List.range' 1 10).filterMap fun i =>
    (env i).bind fun key => if key = "" then none else some key

/-- Function getNextApiKey of both variants: fails when no keys are loaded, otherwise returns the
key at the cursor and advances the cursor by one modulo the pool size.  The
pool itself is never modified. -/
def getNextApiKey (s : PoolState) : Except String (String × PoolState) :=
  if s.apiKeys.length = 0 then
    .error "No API keys configured"
  else
    .ok (s.apiKeys.getD s.currentKeyIndex "",
      { s with currentKeyIndex := (s.currentKeyIndex + 1) % s.apiKeys.length })

/-- Iterated acquisition: `n` consecutive calls of `getNextApiKey`, collecting the returned keys in
order (this is exactly what the per-chunk generation loops do, one acquire
per chunk). -/
def acquireMany : Nat → PoolState → Except String (List String × PoolState)
  | 0, s => .ok ([], s)
  | n + 1, s =>
    match getNextApiKey s with
    | .error e => .error e
    | .ok (k, s') =>
      match acquireMany n s' with
      | .error e => .error e
      | .ok (ks, s'') => .ok (k :: ks, s'')

/-- A chunk plan: number of sequential calls and target characters per call. -/
structure ChunkConfig where
  chunks : Nat
  charsPerChunk : Nat
  deriving DecidableEq, Repr

namespace IndexJs

/-- Maximum reliable output per API call (source comment: 8192 tokens =
~5500 chars); the per-call output ceiling of the external service as fixed by
`src/index.js`. -/
def CHARS_PER_CHUNK : Nat := 5500

/-- Function getChunkConfig of `src/index.js`: a step function over length bands;
every band uses the fixed 5500-character per-chunk target. -/
def getChunkConfig (targetLength : Nat) : ChunkConfig :=
  if targetLength ≤ 10000 then ⟨2, 5500⟩
  else if targetLength ≤ 30000 then ⟨6, 5500⟩
  else if targetLength ≤ 60000 then ⟨12, 5500⟩
  else if targetLength ≤ 100000 then ⟨20, 5500⟩
  else ⟨25, 5500⟩

/-- The seven narrative stages of `getSectionGoal` in `src/index.js`, one
constructor per returned directive string (identified by its header line). -/
inductive Stage where
  /-- Directive HOOK & SETUP -/
  | hookSetup
  /-- Directive RISING ACTION -/
  | risingAction
  /-- Directive COMPLICATIONS & STAKES -/
  | complications
  /-- Directive MIDPOINT CRISIS -/
  | midpointCrisis
  /-- Directive ESCALATION & DARKNESS -/
  | escalationDarkness
  /-- Directive CLIMAX & CONFRONTATION -/
  | climaxConfrontation
  /-- Directive RESOLUTION & CLOSURE (the terminal/closing directive) -/
  | resolutionClosure
  deriving DecidableEq, Repr

/-- Function getSectionGoal(partNum, totalParts) of `src/index.js`:
`progress = partNum / totalParts` partitioned by the thresholds
0.15, 0.35, 0.50, 0.65, 0.80, 0.95.  (All call sites pass
`totalParts = config.chunks ≥ 2`.) -/
def getSectionGoal (partNum totalParts : Nat) : Stage :=
  let progress : ℚ := (partNum : ℚ) / (totalParts : ℚ)
  if progress ≤ 15/100 then .hookSetup
  else if progress ≤ 35/100 then .risingAction
  else if progress ≤ 50/100 then .complications
  else if progress ≤ 65/100 then .midpointCrisis
  else if progress ≤ 80/100 then .escalationDarkness
  else if progress ≤ 95/100 then .climaxConfrontation
  else .resolutionClosure

/-- The terminal flag of `buildContinuationPrompt` in `src/index.js`:
`const isLastChunk = partNum === config.chunks`; when true the prompt gets the
mandatory closing checklist appended. -/
def isLastChunk (partNum chunks : Nat) : Bool :=
  partNum == chunks

end IndexJs

namespace Part000

/-- Function getChunkConfig of `src/unnamed/part_000`: fewer, bigger chunks. -/
def getChunkConfig (targetLength : Nat) : ChunkConfig :=
  if targetLength ≤ 15000 then ⟨2, 6000⟩
  else if targetLength ≤ 35000 then ⟨2, 15000⟩
  else if targetLength ≤ 65000 then ⟨3, 20000⟩
  else if targetLength ≤ 85000 then ⟨3, 25000⟩
  else ⟨3, 35000⟩

/-- The three narrative stages of `getSectionGoal` in `src/unnamed/part_000`,
one constructor per returned string. -/
inductive Stage where
  /-- Directive OPENING (explosive arrival, first encounters) -/
  | opening
  /-- Directive ESCALATION (major confrontations, rising stakes) -/
  | escalationPhase
  /-- Directive CLIMAX & RESOLUTION (ultimate showdown, satisfying conclusion) -/
  | climaxResolution
  deriving DecidableEq, Repr

/-- Function getSectionGoal(partNum, totalParts) of `src/unnamed/part_000`:
thresholds 0.33 and 0.67 on `progress = partNum / totalParts`. -/
def getSectionGoal (partNum totalParts : Nat) : Stage :=
  let progress : ℚ := (partNum : ℚ) / (totalParts : ℚ)
  if progress ≤ 33/100 then .opening
  else if progress ≤ 67/100 then .escalationPhase
  else .climaxResolution

/-- The terminal flag of `buildContinuationPrompt` in `src/unnamed/part_000`:
`const isLastChunk = partNum === config.chunks`. -/
def isLastChunk (partNum chunks : Nat) : Bool :=
  partNum == chunks

end Part000

/-! ### Context extractor -/

/-- The whitespace characters stripped by JavaScript `String.prototype.trim`
(restricted to the ASCII subset; the full Unicode whitespace set plays no
role in any claim). -/
def isJsWhitespace (c : Char) : Bool :=
  c == ' ' || c == '\t' || c == '\n' || c == '\r' || c == '\x0b' || c == '\x0c'

/-- JavaScript `trim()`: strip leading and trailing whitespace. -/
def jsTrim (text : List Char) : List Char :=
  ((text.dropWhile isJsWhitespace).reverse.dropWhile isJsWhitespace).reverse

/-- JavaScript indexOf applied to a period-space pair: the index of the first occurrence of a period
immediately followed by a space, `none` when there is none (JS returns -1). -/
def dotSpaceIndex : List Char → Option Nat
  | [] => none
  | c :: rest =>
    if c == '.' && rest.head? == some ' ' then some 0
    else (dotSpaceIndex rest).map (· + 1)

namespace IndexJs

/-- Function extractCleanContext(text) of `src/index.js`: texts shorter than 100
characters (including the empty text, which is falsy) are returned unchanged;
otherwise the last `min 1500 text.length` characters are taken
(`text.slice(-contextLength)`), the window is advanced past the first ". "
when its index is strictly between 0 and 300, and the result is trimmed. -/
def extractCleanContext (text : List Char) : List Char :=
  if text.length < 100 then text
  else
    let contextLength := min 1500 text.length
    let context := text.drop (text.length - contextLength)
    let context2 :=
      match dotSpaceIndex context with
      | some firstPeriod =>
        if 0 < firstPeriod ∧ firstPeriod < 300 then context.drop (firstPeriod + 2)
        else context
      | none => context
    jsTrim context2

end IndexJs

/-- The sentence-ending characters of the splitting regular expression
(one character class of period, exclamation mark, question mark) used by
`src/unnamed/part_000`. -/
def isSentenceEnder (c : Char) : Bool :=
  c == '.' || c == '!' || c == '?'

/-- JavaScript split on the sentence-ender character class: the fields
between delimiter characters, in order; the empty text yields one empty
field, and a trailing delimiter yields a trailing empty field, exactly as in
JavaScript. -/
def splitOnEnders : List Char → List (List Char)
  | [] => [[]]
  | c :: rest =>
    if isSentenceEnder c then [] :: splitOnEnders rest
    else
      match splitOnEnders rest with
      | [] => [[c]]
      | f :: fs => (c :: f) :: fs

namespace Part000

/-- Function extractCleanContext(text) of `src/unnamed/part_000`: texts
shorter than 100 characters (including the empty text, which is falsy) are
returned unchanged; otherwise the text is split on sentence enders, fields
whose trimmed length exceeds 20 are kept, the last 8 of those are rejoined
with a period-space separator, and a final period is appended.  There is no
character-length window anywhere in this variant. -/
def extractCleanContext (text : List Char) : List Char :=
  if text.length < 100 then text
  else
    let fields := (splitOnEnders text).filter fun s => decide (20 < (jsTrim s).length)
    let last8 := fields.drop (fields.length - 8)
    List.intercalate ['.', ' '] last8 ++ ['.']

end Part000

/-! ### Call executor -/

/-- Outcome of one `axios.post` attempt inside `callGeminiAPI`, as observed by
the `try` block: an HTTP success whose body carries the generated text at the
expected path, an HTTP success with the text missing (the code then throws
"Invalid response format"), an HTTP error status carried by
`error.response.status`, or a timeout (`error.code === ECONNABORTED`). -/
inductive ApiResponse where
  | success (text : String)
  | malformed
  | httpError (status : Nat)
  | timeout
  deriving DecidableEq, Repr

/-- The error inspected by the `catch` block. -/
inductive ApiError where
  | invalidFormat
  | http (status : Nat)
  | timedOut
  deriving DecidableEq, Repr

/-- How `callGeminiAPI` ultimately fails: `wrapped e` is the
`RetryExhaustedError` of `src/index.js` (`API call failed after N attempts:
...` wrapping the last underlying error `e`); `raw e` is a direct rethrow of
the underlying error; `noAttempt` models the `undefined` return when the loop
body never runs (`maxRetries = 0`, never reached by the callers). -/
inductive CallError where
  | wrapped (last : ApiError)
  | raw (e : ApiError)
  | noAttempt
  deriving DecidableEq, Repr

/-- Result of a whole `callGeminiAPI` invocation: the returned text or final
error, the backoff delays (ms) awaited between attempts in order, and the
API key used by each attempt in order. -/
structure CallResult where
  result : Except CallError String
  delays : List Nat
  keysUsed : List String
  deriving Repr

/-- Condition `error.response?.status === 429 || error.code === ECONNABORTED`. -/
def isRateLimitOrTimeout : ApiError → Bool
  | .http s => s == 429
  | .timedOut => true
  | .invalidFormat => false

/-- Condition `error.response?.status >= 500` (false when there is no response). -/
def isServerError : ApiError → Bool
  | .http s => decide (500 ≤ s)
  | _ => false

namespace IndexJs

/-- The `catch` block of one attempt of `callGeminiAPI` in `src/index.js`:
on the last attempt (`attempt === maxRetries - 1`, i.e. `remaining = 0`)
throw the wrapping error; on 429 or timeout wait `2000 * (attempt + 1)` ms
and continue; on a 5xx wait 3000 ms and continue; otherwise rethrow
immediately.  `rest` is the value of continuing the loop. -/
def catchStep (apiKey : String) (e : ApiError) (attempt remaining : Nat)
    (rest : CallResult) : CallResult :=
  if remaining = 0 then
    ⟨.error (.wrapped e), [], [apiKey]⟩
  else if isRateLimitOrTimeout e then
    ⟨rest.result, 2000 * (attempt + 1) :: rest.delays, apiKey :: rest.keysUsed⟩
  else if isServerError e then
    ⟨rest.result, 3000 :: rest.delays, apiKey :: rest.keysUsed⟩
  else
    ⟨.error (.raw e), [], [apiKey]⟩

/-- The retry loop of `callGeminiAPI` in `src/index.js`, starting at
`attempt` with `remaining` loop iterations left (`remaining = maxRetries -
attempt` at every call).  `responses` gives the outcome of the HTTP request
made by each attempt. -/
def callAux (responses : Nat → ApiResponse) (apiKey : String) :
    Nat → Nat → CallResult
  | _, 0 => ⟨.error .noAttempt, [], []⟩
  | attempt, remaining + 1 =>
    match responses attempt with
    | .success text => ⟨.ok text, [], [apiKey]⟩
    | .malformed =>
      catchStep apiKey .invalidFormat attempt remaining
        (callAux responses apiKey (attempt + 1) remaining)
    | .httpError s =>
      catchStep apiKey (.http s) attempt remaining
        (callAux responses apiKey (attempt + 1) remaining)
    | .timeout =>
      catchStep apiKey .timedOut attempt remaining
        (callAux responses apiKey (attempt + 1) remaining)

/-- Function callGeminiAPI(prompt, apiKey, maxRetries) of `src/index.js` (the prompt
does not influence control flow; the per-attempt HTTP outcomes do). -/
def callGeminiAPI (responses : Nat → ApiResponse) (apiKey : String)
    (maxRetries : Nat) : CallResult :=
  callAux responses apiKey 0 maxRetries

end IndexJs

namespace Part000

/-- The `catch` block of one attempt of `callGeminiAPI` in
`src/unnamed/part_000`: on the last attempt rethrow the raw error
(`if (attempt === maxRetries - 1) throw error`); on 429 or timeout wait
`3000 * (attempt + 1)` ms and continue; any other error (including 5xx) is
rethrown immediately. -/
def catchStep (apiKey : String) (e : ApiError) (attempt remaining : Nat)
    (rest : CallResult) : CallResult :=
  if remaining = 0 then
    ⟨.error (.raw e), [], [apiKey]⟩
  else if isRateLimitOrTimeout e then
    ⟨rest.result, 3000 * (attempt + 1) :: rest.delays, apiKey :: rest.keysUsed⟩
  else
    ⟨.error (.raw e), [], [apiKey]⟩

/-- The retry loop of `callGeminiAPI` in `src/unnamed/part_000`. -/
def callAux (responses : Nat → ApiResponse) (apiKey : String) :
    Nat → Nat → CallResult
  | _, 0 => ⟨.error .noAttempt, [], []⟩
  | attempt, remaining + 1 =>
    match responses attempt with
    | .success text => ⟨.ok text, [], [apiKey]⟩
    | .malformed =>
      catchStep apiKey .invalidFormat attempt remaining
        (callAux responses apiKey (attempt + 1) remaining)
    | .httpError s =>
      catchStep apiKey (.http s) attempt remaining
        (callAux responses apiKey (attempt + 1) remaining)
    | .timeout =>
      catchStep apiKey .timedOut attempt remaining
        (callAux responses apiKey (attempt + 1) remaining)

/-- Function callGeminiAPI(prompt, apiKey, maxRetries) of `src/unnamed/part_000`. -/
def callGeminiAPI (responses : Nat → ApiResponse) (apiKey : String)
    (maxRetries : Nat) : CallResult :=
  callAux responses apiKey 0 maxRetries

end Part000

/-! ### Generation session: final statistics and batch response -/

/-- The paragraph separator (two newlines) used to join chunk texts. -/
def paragraphSep : List Char := ['\n', '\n']

/-- Expression chunks.join of the two-newline separator — the full story assembled at COMPLETE. -/
def fullStoryOf (chunks : List (List Char)) : List Char :=
  List.intercalate paragraphSep chunks

/-- Number of maximal whitespace runs in a text; `inRun` records whether the
previous character was whitespace. -/
def wsRunCount : List Char → Bool → Nat
  | [], _ => 0
  | c :: rest, inRun =>
    if isJsWhitespace c then (if inRun then 0 else 1) + wsRunCount rest true
    else wsRunCount rest false

/-- Expression text.split on whitespace runs, then length: JavaScript splitting
yields one field more than the number of whitespace runs (leading and
trailing runs produce empty fields, and the empty string yields one field). -/
def jsWordCount (text : List Char) : Nat :=
  1 + wsRunCount text false

namespace IndexJs

/-- Comparison `fullStory.length >= targetLength * 0.95` — the `achieved` flag computed
by both the streaming and the batch endpoint of `src/index.js`. -/
def lengthAchieved (totalChars targetLength : Nat) : Bool :=
  decide ((targetLength : ℚ) * (95 / 100) ≤ (totalChars : ℚ))

/-- The `stats` object of the batch response of `src/index.js`. -/
structure StoryStats where
  totalChars : Nat
  totalWords : Nat
  targetLength : Nat
  achieved : Bool
  chunksGenerated : Nat
  deriving DecidableEq, Repr

/-- The statistics assembled by `/api/generate` in `src/index.js` once every
chunk has been generated. -/
def generateStats (chunks : List (List Char)) (targetLength : Nat) : StoryStats :=
  let fullStory := fullStoryOf chunks
  { totalChars := fullStory.length
    totalWords := jsWordCount fullStory
    targetLength := targetLength
    achieved := lengthAchieved fullStory.length targetLength
    chunksGenerated := chunks.length }

/-- The batch response of `/api/generate` in `src/index.js` on full
success: `res.json({ success: true, script: fullStory, stats })`. -/
structure BatchResponse where
  success : Bool
  script : List Char
  stats : StoryStats
  deriving DecidableEq, Repr

/-- Endpoint response construction of /api/generate when all chunks completed. -/
def generateResponse (chunks : List (List Char)) (targetLength : Nat) :
    BatchResponse :=
  { success := true
    script := fullStoryOf chunks
    stats := generateStats chunks targetLength }

end IndexJs

namespace Part000

/-- The `stats` object of `/api/generate` in `src/unnamed/part_000`:
`achieved: story.length >= targetLength` — no 95 % tolerance. -/
structure StoryStats where
  totalChars : Nat
  totalWords : Nat
  targetLength : Nat
  achieved : Bool
  deriving DecidableEq, Repr

/-- The statistics assembled by `/api/generate` in `src/unnamed/part_000`
from the finished story. -/
def generateStats (story : List Char) (targetLength : Nat) : StoryStats :=
  { totalChars := story.length
    totalWords := jsWordCount story
    targetLength := targetLength
    achieved := decide (targetLength ≤ story.length) }

end Part000

/-! ### Streaming session (`/api/generate-stream`, `src/index.js` only) -/

/-- Function Math.round(x) on a non-negative rational: floor of `x + 1/2`. -/
def jsRound (q : ℚ) : ℤ := ⌊q + 1 / 2⌋

/-- Expression Math.round of (partNum / chunks) * 100 — the `progress` percentage. -/
def progressPct (partNum total : Nat) : ℤ :=
  jsRound ((partNum : ℚ) / (total : ℚ) * 100)

/-- One server-sent event of `/api/generate-stream`, carrying the fields the
source serialises (`data: {type: ...}`). -/
inductive SSEEvent where
  | init (totalChunks targetLength charsPerChunk : Nat)
  | progress (chunk total : Nat) (pct : ℤ)
  | chunk (idx : Nat) (text : List Char) (chars : Nat)
  | error (chunk : Nat) (msg : String)
  | complete (totalChars totalWords : Nat) (fullStory : List Char) (achieved : Bool)
  deriving DecidableEq, Repr

/-- The text carried by a successful executor outcome (and `[]` for a failed
one; only used where the outcome is known to be a success). -/
def okText : Except String (List Char) → List Char
  | .ok t => t
  | .error _ => []

namespace IndexJs

/-- The `complete` event written after the generation loop of
`/api/generate-stream` has produced `chunks`. -/
def completeEvent (chunks : List (List Char)) (targetLength : Nat) : SSEEvent :=
  .complete (fullStoryOf chunks).length (jsWordCount (fullStoryOf chunks))
    (fullStoryOf chunks) (lengthAchieved (fullStoryOf chunks).length targetLength)

/-- The generation loop of `/api/generate-stream` in `src/index.js`,
modelled over the per-chunk executor outcome `outcome i` (success text or
unrecovered failure message): at 0-based index `i` with `remaining = n - i`
iterations left and `acc` the chunk texts so far, emit the `progress` event,
then on success emit the `chunk` event and continue, and on failure emit the
`error` event and stop (`res.end(); return`); after the last iteration emit
the single `complete` event. -/
def streamLoop (outcome : Nat → Except String (List Char)) (n targetLength : Nat) :
    Nat → Nat → List (List Char) → List SSEEvent
  | _, 0, acc => [completeEvent acc targetLength]
  | i, remaining + 1, acc =>
    SSEEvent.progress (i + 1) n (progressPct (i + 1) n) ::
      match outcome i with
      | .ok t =>
        SSEEvent.chunk (i + 1) t t.length ::
          streamLoop outcome n targetLength (i + 1) remaining (acc ++ [t])
      | .error msg => [SSEEvent.error (i + 1) msg]

/-- The whole event sequence written by one `/api/generate-stream` session
that passed validation: the single `init` event (with `config.chunks = n`,
the requested length and the fixed per-chunk size), then the loop. -/
def generateStreamEvents (outcome : Nat → Except String (List Char))
    (n targetLength : Nat) : List SSEEvent :=
  SSEEvent.init n targetLength CHARS_PER_CHUNK ::
    streamLoop outcome n targetLength 0 n []

/-- Specification-side shape of the per-chunk event pairs: for `r` chunks
starting at 0-based index `i`, a `progress` event immediately followed by
that chunk's `chunk` event, in index order. -/
def pairEvents (outcome : Nat → Except String (List Char)) (n : Nat) :
    Nat → Nat → List SSEEvent
  | _, 0 => []
  | i, r + 1 =>
    SSEEvent.progress (i + 1) n (progressPct (i + 1) n) ::
      SSEEvent.chunk (i + 1) (okText (outcome i)) (okText (outcome i)).length ::
        pairEvents outcome n (i + 1) r

/-- The chunk texts delivered by `r` successful outcomes from index `i`. -/
def textsFrom (outcome : Nat → Except String (List Char)) :
    Nat → Nat → List (List Char)
  | _, 0 => []
  | i, r + 1 => okText (outcome i) :: textsFrom outcome (i + 1) r

end IndexJs

/-! ### Concrete inputs used by witnesses and counterexamples -/

/-- A three-key pool whose cursor sits on the second key. -/
def poolW : PoolState := ⟨["A", "B", "C"], 1⟩

/-- A two-key pool with the cursor at the start. -/
def pool2 : PoolState := ⟨["A", "B"], 0⟩

/-- An environment whose only populated slot holds a whitespace-only value. -/
def envWhitespaceOnly : Nat → Option String :=
  fun i => if i = 1 then some " " else none

/-- Response sequence [429, 429, success `t`]. -/
def seq429 (t : String) : Nat → ApiResponse :=
  fun n => if n < 2 then .httpError 429 else .success t

/-- Response sequence [500, 500, 500, ...]. -/
def seq500 : Nat → ApiResponse :=
  fun _ => .httpError 500

/-- Response sequence [400, 400, ...] (only the first is ever consumed). -/
def seq400 : Nat → ApiResponse :=
  fun _ => .httpError 400

/-- Response sequence [timeout, success `t`]. -/
def seqTimeout (t : String) : Nat → ApiResponse :=
  fun n => if n = 0 then .timeout else .success t

/-- Response sequence [429, success "ok"]. -/
def seq429once : Nat → ApiResponse :=
  fun n => if n = 0 then .httpError 429 else .success "ok"

/-- A 100-character text that opens with a sentence end: "A. " ++ 97 × 'b'. -/
def ctxCexText : List Char := 'A' :: '.' :: ' ' :: List.replicate 97 'b'

/-- A 100-character unpunctuated text: 100 × 'b'. -/
def bRun100 : List Char := List.replicate 100 'b'

/-- Eight 200-character sentences separated by exclamation marks: a
1607-character text. -/
def longSentences : List Char :=
  List.intercalate ['!'] (List.replicate 8 (List.replicate 200 'a'))

/-- A streaming session in which both chunk calls succeed. -/
def outcomeAllOk : Nat → Except String (List Char) :=
  fun _ => .ok ['a']

/-- A streaming session whose second chunk call fails. -/
def outcomeFailAt1 : Nat → Except String (List Char) :=
  fun j => if j = 0 then .ok ['a'] else .error "boom"

/-! ### Helper lemmas about the credential pool -/

lemma acquireMany_eq (m : Nat) :
    ∀ s : PoolState, s.currentKeyIndex < s.apiKeys.length →
      acquireMany m s =
        .ok ((List.range m).map
            (fun j => s.apiKeys.getD ((s.currentKeyIndex + j) % s.apiKeys.length) ""),
          ⟨s.apiKeys, (s.currentKeyIndex + m) % s.apiKeys.length⟩) := by
  induction m with
  | zero =>
    rintro ⟨keys, cur⟩ h
    simp [acquireMany, Nat.mod_eq_of_lt h]
  | succ n ih =>
    rintro ⟨keys, cur⟩ h
    simp only at h
    have hpos : 0 < keys.length := Nat.lt_of_le_of_lt (Nat.zero_le _) h
    have hne : keys.length ≠ 0 := by omega
    have h1 : getNextApiKey ⟨keys, cur⟩ =
        .ok (keys.getD cur "", ⟨keys, (cur + 1) % keys.length⟩) := by
      simp [getNextApiKey, hne]
    have h2 := ih ⟨keys, (cur + 1) % keys.length⟩ (Nat.mod_lt _ hpos)
    simp only [acquireMany, h1, h2]
    have hcur : ((cur + 1) % keys.length + n) % keys.length
        = (cur + (n + 1)) % keys.length := by
      rw [Nat.mod_add_mod]; congr 1; omega
    have hlist : (List.range (n + 1)).map
          (fun j => keys.getD ((cur + j) % keys.length) "")
        = keys.getD cur "" ::
          (List.range n).map (fun j =>
            keys.getD (((cur + 1) % keys.length + j) % keys.length) "") := by
      rw [List.range_succ_eq_map, List.map_cons, List.map_map]
      congr 1
      · rw [Nat.add_zero, Nat.mod_eq_of_lt h]
      · refine List.map_eq_map_iff.mpr fun j _ => ?_
        simp only [Function.comp]
        congr 1
        rw [Nat.mod_add_mod]
        congr 1
        omega
    rw [hlist, hcur]

lemma rotate_eq_acquired (l : List String) (c : Nat) (hc : c < l.length) :
    l.rotate c = (List.range l.length).map fun j => l.getD ((c + j) % l.length) "" := by
  have hpos : 0 < l.length := by omega
  refine List.ext_getElem (by simp) fun i h1 h2 => ?_
  rw [List.getElem_rotate]
  rw [List.getElem_map, List.getElem_range]
  rw [List.getD_eq_getElem _ _ (Nat.mod_lt _ hpos)]
  congr 1
  rw [Nat.add_comm]

/-! ### C3 — chunk plan bounds -/

/-- Claim C3 (confirmed): for every requested length greater than zero, both
planners return at least one chunk, the `src/index.js` per-chunk target never
exceeds the fixed per-call ceiling `CHARS_PER_CHUNK = 5500`, and the
`part_000` variant's per-chunk target never exceeds its own largest per-call
target of 35000 characters (well under its 65536-token output setting). -/
theorem chunk_plan_bounds (targetLength : Nat) (_h : 0 < targetLength) :
    1 ≤ (IndexJs.getChunkConfig targetLength).chunks ∧
    (IndexJs.getChunkConfig targetLength).charsPerChunk ≤ IndexJs.CHARS_PER_CHUNK ∧
    1 ≤ (Part000.getChunkConfig targetLength).chunks ∧
    (Part000.getChunkConfig targetLength).charsPerChunk ≤ 35000 := by
  unfold IndexJs.getChunkConfig Part000.getChunkConfig IndexJs.CHARS_PER_CHUNK
  split_ifs <;> simp

/-- Witness for C3 at the default requested length 60000. -/
theorem chunk_plan_bounds_witness :
    0 < 60000 ∧
    (1 ≤ (IndexJs.getChunkConfig 60000).chunks ∧
      (IndexJs.getChunkConfig 60000).charsPerChunk ≤ IndexJs.CHARS_PER_CHUNK ∧
      1 ≤ (Part000.getChunkConfig 60000).chunks ∧
      (Part000.getChunkConfig 60000).charsPerChunk ≤ 35000) :=
  ⟨by decide, chunk_plan_bounds 60000 (by decide)⟩

/-! ### C4 — round-robin fairness and exhaustion -/

/-- Claim C4 (confirmed): from any pool state whose cursor is in range,
acquiring once per credential returns exactly the pool rotated to start at
the cursor — every credential exactly once, in round-robin order — and
leaves the cursor back where it started; acquiring from an empty pool fails.
(The pool holds no suspension state, so "every credential suspended" is
realisable only as the empty pool.) -/
theorem round_robin_fairness :
    (∀ s : PoolState, s.currentKeyIndex < s.apiKeys.length →
      acquireMany s.apiKeys.length s =
        .ok (s.apiKeys.rotate s.currentKeyIndex, s) ∧
      (s.apiKeys.rotate s.currentKeyIndex).Perm s.apiKeys) ∧
    (∀ s : PoolState, s.apiKeys = [] →
      getNextApiKey s = .error "No API keys configured") := by
  constructor
  · rintro ⟨keys, cur⟩ h
    simp only at h
    refine ⟨?_, List.rotate_perm keys cur⟩
    rw [acquireMany_eq keys.length ⟨keys, cur⟩ h, rotate_eq_acquired keys cur h,
      show (cur + keys.length) % keys.length = cur from by
        rw [Nat.add_mod_right]; exact Nat.mod_eq_of_lt h]
  · rintro ⟨keys, cur⟩ h
    simp only at h
    subst h
    rfl

/-- Witness for C4 on a concrete three-key pool with cursor 1. -/
theorem round_robin_fairness_witness :
    (poolW.currentKeyIndex < poolW.apiKeys.length ∧
      (acquireMany poolW.apiKeys.length poolW =
          .ok (poolW.apiKeys.rotate poolW.currentKeyIndex, poolW) ∧
        (poolW.apiKeys.rotate poolW.currentKeyIndex).Perm poolW.apiKeys)) ∧
    ((⟨[], 0⟩ : PoolState).apiKeys = [] ∧
      getNextApiKey (⟨[], 0⟩ : PoolState) = .error "No API keys configured") :=
  ⟨⟨by decide, round_robin_fairness.1 poolW (by decide)⟩,
   ⟨rfl, round_robin_fairness.2 ⟨[], 0⟩ rfl⟩⟩

/-! ### C10 — acquire invariant -/

/-- Claim C10 (confirmed): an acquire on a pool whose cursor is in range
returns the key sitting at the cursor, leaves the key list unchanged, and
moves the cursor to `(cursor + 1) % size`, which is again in range. -/
theorem acquire_invariant (s : PoolState) (h : s.currentKeyIndex < s.apiKeys.length) :
    getNextApiKey s = .ok (s.apiKeys.get ⟨s.currentKeyIndex, h⟩,
      { apiKeys := s.apiKeys,
        currentKeyIndex := (s.currentKeyIndex + 1) % s.apiKeys.length }) ∧
    (s.currentKeyIndex + 1) % s.apiKeys.length < s.apiKeys.length := by
  have hne : s.apiKeys.length ≠ 0 := by omega
  refine ⟨?_, Nat.mod_lt _ (by omega)⟩
  unfold getNextApiKey
  rw [if_neg hne, List.getD_eq_getElem _ _ h]
  rfl

/-- Witness for C10 on the concrete three-key pool. -/
theorem acquire_invariant_witness :
    poolW.currentKeyIndex < poolW.apiKeys.length ∧
    (getNextApiKey poolW = .ok (poolW.apiKeys.get ⟨poolW.currentKeyIndex, by decide⟩,
        { apiKeys := poolW.apiKeys,
          currentKeyIndex := (poolW.currentKeyIndex + 1) % poolW.apiKeys.length }) ∧
      (poolW.currentKeyIndex + 1) % poolW.apiKeys.length < poolW.apiKeys.length) :=
  ⟨by decide, acquire_invariant poolW (by decide)⟩

/-! ### C9 — credential loading -/

/-- Claim C9 counterexample: slot 1 holds the whitespace-only value `" "`,
yet the loader adds it to the pool (the claim requires whitespace-only slots
to contribute nothing). -/
theorem load_whitespace_only_cex :
    loadApiKeys envWhitespaceOnly = [" "] ∧
    (" ").toList.all isJsWhitespace = true := by
  constructor
  · rfl
  · rfl

/-- Claim C9 (amended): loading reads slots 1..10 and a value joins the pool
iff its slot is present and non-empty — whitespace-only values are loaded
too.  (Loaded credentials are plain strings; the pool keeps no per-credential
use-count or suspension state, see `PoolState`.) -/
theorem load_iff_present_nonempty (env : Nat → Option String) (k : String) :
    k ∈ loadApiKeys env ↔ k ≠ "" ∧ ∃ i, 1 ≤ i ∧ i ≤ 10 ∧ env i = some k := by
  unfold loadApiKeys
  rw [List.mem_filterMap]
  constructor
  · rintro ⟨i, hi, hk⟩
    rw [List.mem_range'_1] at hi
    cases henv : env i with
    | none => rw [henv] at hk; simp at hk
    | some v =>
      rw [henv, Option.some_bind] at hk
      by_cases hv : v = ""
      · rw [if_pos hv] at hk; simp at hk
      · rw [if_neg hv] at hk
        simp only [Option.some_inj] at hk
        subst hk
        exact ⟨hv, i, hi.1, by omega, henv⟩
  · rintro ⟨hk, i, h1, h10, henv⟩
    refine ⟨i, by rw [List.mem_range'_1]; omega, ?_⟩
    rw [henv, Option.some_bind, if_neg hk]

/-! ### C5 — terminal stage directive -/

/-- Claim C5 counterexample: with the 25-chunk plan (produced for requested
lengths above 100000), `getSectionGoal` already returns the terminal
"RESOLUTION & CLOSURE" directive at part 24 of 25 (24/25 = 0.96 > 0.95),
although 24 ≠ 25 — so the terminal directive is not equivalent to
`index == total`. -/
theorem stage_terminal_cex :
    IndexJs.getSectionGoal 24 25 = .resolutionClosure ∧
    (24 ≠ 25) ∧ (IndexJs.getChunkConfig 100001).chunks = 25 := by
  refine ⟨?_, by decide, by decide⟩
  simp only [IndexJs.getSectionGoal]
  norm_num

/-- Claim C5 (amended): the terminal flag `isLastChunk` used by both
continuation prompt builders is true iff `index = total`; the terminal
directive of `getSectionGoal` in `src/index.js` is returned iff
`index / total > 0.95`, i.e. iff `19 * total < 20 * index`, which given
`1 ≤ index ≤ total` coincides with `index = total` exactly when
`total ≤ 20`; the `part_000` variant's terminal directive coincides with
`index = total` for the chunk counts 2 and 3 its planner produces. -/
theorem stage_terminal_characterisation (idx total : Nat)
    (hi : 1 ≤ idx) (ht : idx ≤ total) :
    (IndexJs.isLastChunk idx total = true ↔ idx = total) ∧
    (Part000.isLastChunk idx total = true ↔ idx = total) ∧
    (IndexJs.getSectionGoal idx total = .resolutionClosure ↔ 19 * total < 20 * idx) ∧
    (total ≤ 20 → (IndexJs.getSectionGoal idx total = .resolutionClosure ↔ idx = total)) ∧
    ((total = 2 ∨ total = 3) →
      (Part000.getSectionGoal idx total = .climaxResolution ↔ idx = total)) := by
  have htpos : 0 < total := by omega
  have htq : (0 : ℚ) < (total : ℚ) := by exact_mod_cast htpos
  have hmain : IndexJs.getSectionGoal idx total = .resolutionClosure ↔
      19 * total < 20 * idx := by
    by_cases h95 : (idx : ℚ) / (total : ℚ) ≤ 95 / 100
    · have hnat : idx * 100 ≤ 95 * total := by
        have h := (div_le_div_iff₀ htq (by norm_num : (0:ℚ) < 100)).mp h95
        exact_mod_cast h
      have harith : ¬(19 * total < 20 * idx) := by omega
      simp only [IndexJs.getSectionGoal]
      split_ifs with hA hB hC hD hE <;> simp [harith]
    · have hlt : (95 : ℚ) / 100 < (idx : ℚ) / (total : ℚ) := lt_of_not_le h95
      have hnat : 95 * total < idx * 100 := by
        have h := (div_lt_div_iff₀ (by norm_num : (0:ℚ) < 100) htq).mp hlt
        exact_mod_cast h
      simp only [IndexJs.getSectionGoal]
      split_ifs with hA hB hC hD hE
      · exact absurd (hA.trans (by norm_num)) h95
      · exact absurd (hB.trans (by norm_num)) h95
      · exact absurd (hC.trans (by norm_num)) h95
      · exact absurd (hD.trans (by norm_num)) h95
      · exact absurd (hE.trans (by norm_num)) h95
      · simp only [true_iff]
        omega
  refine ⟨?_, ?_, hmain, fun h20 => ?_, ?_⟩
  · simp [IndexJs.isLastChunk]
  · simp [Part000.isLastChunk]
  · rw [hmain]
    omega
  · rintro (rfl | rfl)
    · interval_cases idx <;> (norm_num [Part000.getSectionGoal]; try decide)
    · interval_cases idx <;> (norm_num [Part000.getSectionGoal]; try decide)

/-- Witness for C5 at part 11 of a 12-chunk plan (not terminal). -/
theorem stage_terminal_witness :
    (1 ≤ 11 ∧ 11 ≤ 12) ∧
    ((IndexJs.isLastChunk 11 12 = true ↔ 11 = 12) ∧
      (Part000.isLastChunk 11 12 = true ↔ 11 = 12) ∧
      (IndexJs.getSectionGoal 11 12 = .resolutionClosure ↔ 19 * 12 < 20 * 11) ∧
      (12 ≤ 20 → (IndexJs.getSectionGoal 11 12 = .resolutionClosure ↔ 11 = 12)) ∧
      ((12 = 2 ∨ 12 = 3) →
        (Part000.getSectionGoal 11 12 = .climaxResolution ↔ 11 = 12))) :=
  ⟨⟨by decide, by decide⟩, stage_terminal_characterisation 11 12 (by decide) (by decide)⟩

/-! ### C6 — context extractor bounds -/

lemma jsTrim_length_le (l : List Char) : (jsTrim l).length ≤ l.length := by
  unfold jsTrim
  calc ((l.dropWhile isJsWhitespace).reverse.dropWhile isJsWhitespace).reverse.length
      = ((l.dropWhile isJsWhitespace).reverse.dropWhile isJsWhitespace).length :=
        List.length_reverse _
    _ ≤ (l.dropWhile isJsWhitespace).reverse.length :=
        (List.dropWhile_suffix _).sublist.length_le
    _ = (l.dropWhile isJsWhitespace).length := List.length_reverse _
    _ ≤ l.length := (List.dropWhile_suffix _).sublist.length_le

lemma splitOnEnders_replicate_b (k : Nat) :
    splitOnEnders (List.replicate k 'b') = [List.replicate k 'b'] := by
  induction k with
  | zero => rfl
  | succ n ih =>
    rw [List.replicate_succ]
    unfold splitOnEnders
    rw [if_neg (by decide)]
    rw [ih]

lemma dropWhile_replicate_b (k : Nat) :
    (List.replicate k 'b').dropWhile isJsWhitespace = List.replicate k 'b' := by
  cases k with
  | zero => rfl
  | succ n =>
    rw [List.replicate_succ, List.dropWhile_cons]
    rw [if_neg (by decide)]

lemma jsTrim_replicate_b (k : Nat) :
    jsTrim (List.replicate k 'b') = List.replicate k 'b' := by
  unfold jsTrim
  rw [dropWhile_replicate_b, List.reverse_replicate, dropWhile_replicate_b,
    List.reverse_replicate]

set_option maxRecDepth 40000 in
/-- Claim C6 counterexample, covering both cited extractors.  For
`src/index.js`: `ctxCexText` is a 100-character text — shorter than the
1500-character trailing-window bound — yet `extractCleanContext` does not
return it unchanged (it cuts at the period-space after the first word).  For
`src/unnamed/part_000`: the 100-character unpunctuated `bRun100` is also
below the bound yet comes back changed (a period is appended), and the
1607-character `longSentences` yields a 1615-character excerpt — the
variant's output exceeds the 1500-character bound and even the input's own
length, so it is bounded by no trailing window at all. -/
theorem extract_short_changed_cex :
    (ctxCexText.length = 100 ∧ ctxCexText.length < 1500 ∧
      IndexJs.extractCleanContext ctxCexText ≠ ctxCexText) ∧
    (bRun100.length = 100 ∧ bRun100.length < 1500 ∧
      Part000.extractCleanContext bRun100 = bRun100 ++ ['.'] ∧
      Part000.extractCleanContext bRun100 ≠ bRun100) ∧
    (longSentences.length = 1607 ∧
      (Part000.extractCleanContext longSentences).length = 1615) := by
  refine ⟨⟨by decide, by decide, by decide⟩,
    ⟨by decide, by decide, by decide, by decide⟩, ⟨by decide, by decide⟩⟩

/-- Claim C6 (amended): the `src/index.js` extractor returns texts of fewer
than 100 characters unchanged, and for every text of at least 100 characters
its excerpt never exceeds the 1500-character bound (texts between 100 and
1500 characters may still be shortened by the sentence-boundary cut and
trimming).  The `part_000` extractor returns texts of fewer than 100
characters unchanged but obeys no character bound at all: for every bound
`n` there is an input whose excerpt is longer than `n` (it keeps the last 8
substantial sentences whole and appends a period, so even unpunctuated
inputs come back changed and longer). -/
theorem extract_bounds (text : List Char) :
    (text.length < 100 → IndexJs.extractCleanContext text = text) ∧
    (100 ≤ text.length → (IndexJs.extractCleanContext text).length ≤ 1500) ∧
    (text.length < 100 → Part000.extractCleanContext text = text) ∧
    (∀ n : Nat, ∃ t : List Char, 100 ≤ t.length ∧
      n < (Part000.extractCleanContext t).length) := by
  refine ⟨?_, ?_, ?_, ?_⟩
  · intro h
    unfold IndexJs.extractCleanContext
    rw [if_pos h]
  · intro h
    unfold IndexJs.extractCleanContext
    rw [if_neg (by omega)]
    dsimp only
    refine le_trans (jsTrim_length_le _) ?_
    have hctx : (text.drop (text.length - min 1500 text.length)).length ≤ 1500 := by
      rw [List.length_drop]
      omega
    rcases hd : dotSpaceIndex (text.drop (text.length - min 1500 text.length)) with _ | i
    · exact hctx
    · dsimp only
      by_cases hi : 0 < i ∧ i < 300
      · rw [if_pos hi]
        refine le_trans ?_ hctx
        rw [List.length_drop]
        omega
      · rw [if_neg hi]
        exact hctx
  · intro h
    unfold Part000.extractCleanContext
    rw [if_pos h]
  · intro n
    refine ⟨List.replicate (max 100 (n + 1)) 'b', by simp, ?_⟩
    unfold Part000.extractCleanContext
    rw [if_neg (by simp)]
    dsimp only
    rw [splitOnEnders_replicate_b]
    have h20 : 20 < (jsTrim (List.replicate (max 100 (n + 1)) 'b')).length := by
      rw [jsTrim_replicate_b, List.length_replicate]
      omega
    rw [List.filter_cons, if_pos (by exact decide_eq_true h20), List.filter_nil]
    simp [List.intercalate]
    omega

/-- Witness for C6: a short text is returned unchanged by both extractors,
the excerpt of the 100-character counterexample text stays within the
index.js 1500 bound, and the part_000 extractor exceeds the bound 1500 on
some input. -/
theorem extract_bounds_witness :
    (['h', 'i'].length < 100 ∧ IndexJs.extractCleanContext ['h', 'i'] = ['h', 'i']) ∧
    (100 ≤ ctxCexText.length ∧ (IndexJs.extractCleanContext ctxCexText).length ≤ 1500) ∧
    (['h', 'i'].length < 100 ∧ Part000.extractCleanContext ['h', 'i'] = ['h', 'i']) ∧
    (∃ t : List Char, 100 ≤ t.length ∧ 1500 < (Part000.extractCleanContext t).length) :=
  ⟨⟨by decide, (extract_bounds ['h', 'i']).1 (by decide)⟩,
   ⟨by decide, (extract_bounds ctxCexText).2.1 (by decide)⟩,
   ⟨by decide, (extract_bounds ['h', 'i']).2.2.1 (by decide)⟩,
   (extract_bounds []).2.2.2 1500⟩

/-! ### C1 — call executor retry scenarios -/

/-- Claim C1 counterexample: in the `part_000` variant a [500, 500, 500]
sequence does not retry at all — the first 500 is rethrown raw immediately
(no `RetryExhaustedError`, zero backoff delays, a single attempt). -/
theorem call_500_variant_cex :
    (Part000.callGeminiAPI seq500 "key" 3).result = .error (.raw (.http 500)) ∧
    (Part000.callGeminiAPI seq500 "key" 3).delays = [] ∧
    (Part000.callGeminiAPI seq500 "key" 3).keysUsed = ["key"] :=
  ⟨rfl, rfl, rfl⟩

/-- Claim C1 (amended): with `maxRetries = 3`, the `src/index.js` executor
treats 429, 5xx and timeout as transient — [429, 429, success] yields the
success text after exactly the two backoff delays 2000 ms and 4000 ms,
[500, 500, 500] fails with the `RetryExhaustedError` wrapping the last
underlying error after two 3000 ms backoffs, a single timeout is retried,
and a single 400 fails immediately with zero retries; the `part_000` variant
treats only 429 and timeout as transient (backoffs 3000 ms and 6000 ms) and
fails immediately with the raw error on both a 400 and a 500. -/
theorem call_executor_scenarios (key t : String) :
    IndexJs.callGeminiAPI (seq429 t) key 3
      = ⟨.ok t, [2000, 4000], [key, key, key]⟩ ∧
    IndexJs.callGeminiAPI seq500 key 3
      = ⟨.error (.wrapped (.http 500)), [3000, 3000], [key, key, key]⟩ ∧
    IndexJs.callGeminiAPI seq400 key 3
      = ⟨.error (.raw (.http 400)), [], [key]⟩ ∧
    IndexJs.callGeminiAPI (seqTimeout t) key 3
      = ⟨.ok t, [2000], [key, key]⟩ ∧
    Part000.callGeminiAPI (seq429 t) key 3
      = ⟨.ok t, [3000, 6000], [key, key, key]⟩ ∧
    Part000.callGeminiAPI seq400 key 3
      = ⟨.error (.raw (.http 400)), [], [key]⟩ ∧
    Part000.callGeminiAPI seq500 key 3
      = ⟨.error (.raw (.http 500)), [], [key]⟩ :=
  ⟨rfl, rfl, rfl, rfl, rfl, rfl, rfl⟩

/-! ### C2 — no credential suspension on 429 -/

/-- Claim C2 counterexample: with the two-key pool, the first acquire hands
out "A"; a 429 on "A" makes the executor retry with the very same key "A"
(both attempts use "A"), and the pool is left to plain rotation — the next
two acquires return "B" and then "A" again, i.e. the rate-limited key comes
straight back with no suspension or cooldown. -/
theorem call_429_no_suspension_cex :
    getNextApiKey pool2 = .ok ("A", ⟨["A", "B"], 1⟩) ∧
    (IndexJs.callGeminiAPI seq429once "A" 3).keysUsed = ["A", "A"] ∧
    (IndexJs.callGeminiAPI seq429once "A" 3).result = .ok "ok" ∧
    acquireMany 2 ⟨["A", "B"], 1⟩ = .ok (["B", "A"], ⟨["A", "B"], 1⟩) :=
  ⟨rfl, rfl, rfl, rfl⟩

lemma catchStep_keys_const (key : String) (e : ApiError) (attempt remaining : Nat)
    (rest : CallResult)
    (hrest : rest.keysUsed = List.replicate rest.keysUsed.length key) :
    (IndexJs.catchStep key e attempt remaining rest).keysUsed
      = List.replicate (IndexJs.catchStep key e attempt remaining rest).keysUsed.length
          key := by
  unfold IndexJs.catchStep
  split_ifs <;>
    first
      | rfl
      | (show key :: rest.keysUsed
            = List.replicate (key :: rest.keysUsed).length key
         rw [List.length_cons, List.replicate_succ, ← hrest])

lemma catchStepV_keys_const (key : String) (e : ApiError) (attempt remaining : Nat)
    (rest : CallResult)
    (hrest : rest.keysUsed = List.replicate rest.keysUsed.length key) :
    (Part000.catchStep key e attempt remaining rest).keysUsed
      = List.replicate (Part000.catchStep key e attempt remaining rest).keysUsed.length
          key := by
  unfold Part000.catchStep
  split_ifs <;>
    first
      | rfl
      | (show key :: rest.keysUsed
            = List.replicate (key :: rest.keysUsed).length key
         rw [List.length_cons, List.replicate_succ, ← hrest])

lemma callAux_keys_const (responses : Nat → ApiResponse) (key : String) :
    ∀ remaining attempt,
      (IndexJs.callAux responses key attempt remaining).keysUsed
        = List.replicate
            (IndexJs.callAux responses key attempt remaining).keysUsed.length key := by
  intro remaining
  induction remaining with
  | zero => intro attempt; rfl
  | succ n ih =>
    intro attempt
    unfold IndexJs.callAux
    cases responses attempt with
    | success t => rfl
    | malformed => exact catchStep_keys_const key _ attempt n _ (ih (attempt + 1))
    | httpError s => exact catchStep_keys_const key _ attempt n _ (ih (attempt + 1))
    | timeout => exact catchStep_keys_const key _ attempt n _ (ih (attempt + 1))

lemma callAuxV_keys_const (responses : Nat → ApiResponse) (key : String) :
    ∀ remaining attempt,
      (Part000.callAux responses key attempt remaining).keysUsed
        = List.replicate
            (Part000.callAux responses key attempt remaining).keysUsed.length key := by
  intro remaining
  induction remaining with
  | zero => intro attempt; rfl
  | succ n ih =>
    intro attempt
    unfold Part000.callAux
    cases responses attempt with
    | success t => rfl
    | malformed => exact catchStepV_keys_const key _ attempt n _ (ih (attempt + 1))
    | httpError s => exact catchStepV_keys_const key _ attempt n _ (ih (attempt + 1))
    | timeout => exact catchStepV_keys_const key _ attempt n _ (ih (attempt + 1))

/-- Claim C2 (amended): neither executor informs any suspension mechanism —
none exists — and every attempt of one `callGeminiAPI` invocation, retries
included, uses the one credential it was given: the list of keys used per
attempt is constantly that key.  The pool mutates only through plain
round-robin rotation (see `getNextApiKey`). -/
theorem call_retries_keep_credential (responses : Nat → ApiResponse) (key : String)
    (maxRetries : Nat) :
    (IndexJs.callGeminiAPI responses key maxRetries).keysUsed
      = List.replicate
          (IndexJs.callGeminiAPI responses key maxRetries).keysUsed.length key ∧
    (Part000.callGeminiAPI responses key maxRetries).keysUsed
      = List.replicate
          (Part000.callGeminiAPI responses key maxRetries).keysUsed.length key :=
  ⟨callAux_keys_const responses key maxRetries 0,
   callAuxV_keys_const responses key maxRetries 0⟩

/-! ### C7 — achieved flag in the final statistics -/

lemma lengthAchieved_iff (c t : Nat) :
    IndexJs.lengthAchieved c t = true ↔ 19 * t ≤ 20 * c := by
  unfold IndexJs.lengthAchieved
  rw [decide_eq_true_iff]
  constructor
  · intro h
    have hq : (t : ℚ) * 95 ≤ (c : ℚ) * 100 := by linarith
    have hn : t * 95 ≤ c * 100 := by exact_mod_cast hq
    omega
  · intro h
    have hn : t * 95 ≤ c * 100 := by omega
    have hq : (t : ℚ) * 95 ≤ (c : ℚ) * 100 := by exact_mod_cast hn
    linarith

/-- Claim C7 counterexample: a 96-character story with a 100-character target
is at 96 % ≥ 95 % of the target, yet the `part_000` `/api/generate` endpoint
reports `achieved = false` (it compares against the full target, not 95 % of
it) — so "achieved = true exactly when ≥ 95 %" fails on that endpoint. -/
theorem achieved_variant_cex :
    (Part000.generateStats (List.replicate 96 'a') 100).achieved = false ∧
    IndexJs.lengthAchieved 96 100 = true ∧
    (List.replicate 96 'a').length = 96 :=
  ⟨by decide, (lengthAchieved_iff 96 100).mpr (by omega), by decide⟩

/-- Claim C7 (amended): a generation that completes all chunks responds with
`success = true` regardless of the length outcome; in `src/index.js` (batch
and streaming alike — the streaming `complete` event computes its flag with
the same `lengthAchieved`) the final statistics report
`achieved = true` iff the joined story reaches 95 % of the target
(`19 * target ≤ 20 * chars`), while the `part_000` variant reports
`achieved = true` iff the story reaches the full target. -/
theorem achieved_thresholds (chunks : List (List Char)) (story : List Char)
    (targetLength : Nat) :
    (IndexJs.generateResponse chunks targetLength).success = true ∧
    (IndexJs.generateStats chunks targetLength).totalChars
      = (fullStoryOf chunks).length ∧
    ((IndexJs.generateStats chunks targetLength).achieved = true ↔
      19 * targetLength ≤ 20 * (fullStoryOf chunks).length) ∧
    (IndexJs.completeEvent chunks targetLength
      = SSEEvent.complete (fullStoryOf chunks).length
          (jsWordCount (fullStoryOf chunks)) (fullStoryOf chunks)
          (IndexJs.lengthAchieved (fullStoryOf chunks).length targetLength)) ∧
    ((Part000.generateStats story targetLength).achieved = true ↔
      targetLength ≤ story.length) := by
  refine ⟨rfl, rfl, lengthAchieved_iff _ _, rfl, ?_⟩
  simp [Part000.generateStats]

/-! ### C8 — streaming event order -/

lemma streamLoop_all_ok (outcome : Nat → Except String (List Char))
    (n targetLength : Nat) :
    ∀ (r i : Nat) (acc : List (List Char)),
      (∀ j, j < r → (outcome (i + j)).isOk = true) →
      IndexJs.streamLoop outcome n targetLength i r acc
        = IndexJs.pairEvents outcome n i r
            ++ [IndexJs.completeEvent (acc ++ IndexJs.textsFrom outcome i r)
                  targetLength] := by
  intro r
  induction r with
  | zero =>
    intro i acc _
    simp [IndexJs.streamLoop, IndexJs.pairEvents, IndexJs.textsFrom]
  | succ m ih =>
    intro i acc h
    have h0 : (outcome i).isOk = true := by simpa using h 0 (by omega)
    obtain ⟨t, ht⟩ : ∃ t, outcome i = .ok t := by
      cases ho : outcome i with
      | ok t => exact ⟨t, rfl⟩
      | error e => rw [ho] at h0; simp [Except.isOk, Except.toBool] at h0
    unfold IndexJs.streamLoop IndexJs.pairEvents IndexJs.textsFrom
    rw [ht]
    dsimp only
    rw [ih (i + 1) (acc ++ [t]) (fun j hj => by
      simpa [show i + 1 + j = i + (j + 1) from by omega] using h (j + 1) (by omega))]
    simp [okText, ht]

lemma streamLoop_fail (outcome : Nat → Except String (List Char))
    (n targetLength : Nat) :
    ∀ (f r i : Nat) (acc : List (List Char)), f < r →
      (∀ j, j < f → (outcome (i + j)).isOk = true) →
      ∀ msg, outcome (i + f) = .error msg →
      IndexJs.streamLoop outcome n targetLength i r acc
        = IndexJs.pairEvents outcome n i f
            ++ [SSEEvent.progress (i + f + 1) n (progressPct (i + f + 1) n),
                SSEEvent.error (i + f + 1) msg] := by
  intro f
  induction f with
  | zero =>
    intro r i acc hfr _ msg herr
    obtain ⟨r', rfl⟩ : ∃ r', r = r' + 1 := ⟨r - 1, by omega⟩
    rw [show i + 0 = i from rfl] at herr
    unfold IndexJs.streamLoop IndexJs.pairEvents
    rw [herr]
    simp
  | succ m ih =>
    intro r i acc hfr hmin msg herr
    obtain ⟨r', rfl⟩ : ∃ r', r = r' + 1 := ⟨r - 1, by omega⟩
    have h0 : (outcome i).isOk = true := by simpa using hmin 0 (by omega)
    obtain ⟨t, ht⟩ : ∃ t, outcome i = .ok t := by
      cases ho : outcome i with
      | ok t => exact ⟨t, rfl⟩
      | error e => rw [ho] at h0; simp [Except.isOk, Except.toBool] at h0
    unfold IndexJs.streamLoop IndexJs.pairEvents
    rw [ht]
    dsimp only
    rw [ih r' (i + 1) (acc ++ [t]) (by omega)
      (fun j hj => by
        simpa [show i + 1 + j = i + (j + 1) from by omega] using hmin (j + 1) (by omega))
      msg (by simpa [show i + 1 + m = i + (m + 1) from by omega] using herr)]
    simp [okText, ht, show i + 1 + m = i + (m + 1) from by omega]

/-- Claim C8 (confirmed): every streaming session's event sequence is exactly
one `init` event followed, for each chunk index in order, by one `progress`
event immediately followed by that chunk's `chunk` event (`pairEvents`), and
is terminated either by the single `complete` event when every chunk call
succeeds, or — at the first failing chunk — by that chunk's `progress` event
followed by a single terminal `error` event with nothing after it. -/
theorem stream_event_order (outcome : Nat → Except String (List Char))
    (n targetLength : Nat) :
    ((∀ j, j < n → (outcome j).isOk = true) →
      IndexJs.generateStreamEvents outcome n targetLength
        = SSEEvent.init n targetLength IndexJs.CHARS_PER_CHUNK ::
            (IndexJs.pairEvents outcome n 0 n
              ++ [IndexJs.completeEvent (IndexJs.textsFrom outcome 0 n)
                    targetLength])) ∧
    (∀ f msg, f < n → (∀ j, j < f → (outcome j).isOk = true) →
      outcome f = .error msg →
      IndexJs.generateStreamEvents outcome n targetLength
        = SSEEvent.init n targetLength IndexJs.CHARS_PER_CHUNK ::
            (IndexJs.pairEvents outcome n 0 f
              ++ [SSEEvent.progress (f + 1) n (progressPct (f + 1) n),
                  SSEEvent.error (f + 1) msg])) := by
  constructor
  · intro h
    unfold IndexJs.generateStreamEvents
    rw [streamLoop_all_ok outcome n targetLength n 0 [] (fun j hj => by
      simpa using h j hj)]
    simp
  · intro f msg hf hmin herr
    unfold IndexJs.generateStreamEvents
    rw [streamLoop_fail outcome n targetLength f n 0 [] hf (fun j hj => by
      simpa using hmin j hj) msg (by simpa using herr)]
    simp

/-- Witness for C8: a two-chunk session where both calls succeed, and one
where the second call fails. -/
theorem stream_event_order_witness :
    ((∀ j, j < 2 → (outcomeAllOk j).isOk = true) ∧
      IndexJs.generateStreamEvents outcomeAllOk 2 100
        = SSEEvent.init 2 100 IndexJs.CHARS_PER_CHUNK ::
            (IndexJs.pairEvents outcomeAllOk 2 0 2
              ++ [IndexJs.completeEvent (IndexJs.textsFrom outcomeAllOk 0 2) 100])) ∧
    ((1 < 2 ∧ (∀ j, j < 1 → (outcomeFailAt1 j).isOk = true) ∧
        outcomeFailAt1 1 = .error "boom") ∧
      IndexJs.generateStreamEvents outcomeFailAt1 2 100
        = SSEEvent.init 2 100 IndexJs.CHARS_PER_CHUNK ::
            (IndexJs.pairEvents outcomeFailAt1 2 0 1
              ++ [SSEEvent.progress 2 2 (progressPct 2 2),
                  SSEEvent.error 2 "boom"])) :=
  ⟨⟨by decide, (stream_event_order outcomeAllOk 2 100).1 (by decide)⟩,
   ⟨⟨by decide, by decide, rfl⟩,
    (stream_event_order outcomeFailAt1 2 100).2 1 "boom" (by decide) (by decide) rfl⟩⟩
